import Mathlib

/-!
# Verification of the playback-session core (`src/core/audio_player.py`)

A shallow embedding of the `AudioPlayer` class of `src/core/audio_player.py`
(the most complete variant of the `audio_player` component).  Python instance
attributes become fields of `PlayerState`; the surrounding process facts that
are fixed at construction time (which backend objects exist, whether the
transcoding library is importable, and what the external libraries would answer
for a given path) become an `Env` record; the file system visible through
`os.path.exists` / `os.remove` becomes an explicit `FS` value threaded through
the operations.  Qt signal emissions become explicit `Event` values returned by
each operation.  Timer-scheduled callbacks (`QTimer.singleShot`) are noted in
comments: they run outside the synchronous step being modelled.
-/

namespace AudioPlayerModel

/-! ## Configurable control variables (class attributes, lines 56-94) -/

def PREFER_VLC : Bool := true
def ALLOW_ENGINE_FALLBACK : Bool := true
def MAX_SEEKS_PER_SECOND : ℚ := 10
def ENABLE_M4A_CONVERSION : Bool := true
def TEMP_FILE_CLEANUP : Bool := true
def DEFAULT_VOLUME : Int := 70
def ENABLE_MUTE_MEMORY : Bool := true
def MAX_RETRY_ATTEMPTS : Nat := 3
def AUTO_RECOVER_ON_ERROR : Bool := true
def EMIT_REDUNDANT_STATES : Bool := false
def TRACK_SEEK_STATE : Bool := true

/-! ## Backend-native state (`vlc.State`) -/

inductive VlcState where
  | NothingSpecial
  | Opening
  | Buffering
  | Playing
  | Paused
  | Stopped
  | Ended
  | Error
deriving DecidableEq, Repr

/-! ## Qt signals (`pyqtSignal` emissions, lines 45-49) -/

inductive Event where
  | positionChanged (ms : Int)
  | durationChanged (ms : Int)
  | stateChanged (st : Int)
  | mediaLoaded (ok : Bool)
  | songEnded
deriving DecidableEq, Repr

/-- The instance attributes of `AudioPlayer` set in `__init__` (lines 170-181)
together with the media handle each backend player currently holds
(`vlc_player.set_media` / `qt_player.setMedia`) and the effective output volume
last pushed to the active backend (`audio_set_volume` / `setVolume`). -/
structure PlayerState where
  current_song : Option String
  volume : Int
  temp_audio_file : Option String
  duration : Int
  muted : Bool
  volume_before_mute : Int
  song_ended : Bool
  seeking : Bool
  last_seek_time : ℚ
  last_vlc_state : Option VlcState
  retry_count : Nat
  using_vlc : Bool
  vlc_media : Option String
  qt_media : Option String
  driver_volume : Int
deriving DecidableEq, Repr

/-- Process-wide facts fixed at construction: whether each backend player
object exists (`self.vlc_player` / `self.qt_player` non-None), whether pydub
imported (`PYDUB_AVAILABLE`), and the responses of the external libraries:
whether `_load_with_vlc` / `_load_with_qt` succeed for a path, what temp path
`AudioSegment` conversion would produce (`none` = conversion raises), and
whether `vlc_player.play()` returns 0. -/
structure Env where
  vlc_player : Bool
  qt_player : Bool
  pydub_available : Bool
  vlc_load_ok : String → Bool
  qt_load_ok : String → Bool
  convert_result : String → Option String
  play_ok : Bool

/-- The file system as seen through `os.path.exists` / `os.remove`: the set of
existing paths, and the paths for which `os.remove` raises (file locked by the
backend, per the tolerated failure path of `_cleanup_temp_files`). -/
structure FS where
  files : List String
  locked : List String
deriving DecidableEq, Repr

def os_path_exists (fs : FS) (p : String) : Bool :=
  fs.files.contains p

/-- `os.remove`: deletes the path, or raises (modelled as `false` with the file
kept) when the path is locked. -/
def os_remove (fs : FS) (p : String) : FS × Bool :=
  if fs.locked.contains p then (fs, false)
  else ({ fs with files := fs.files.erase p }, true)

/-- The state right after `__init__` (lines 170-199); `set_volume(self.volume)`
at the end of `__init__` pushes the default volume to the driver. -/
def initState : PlayerState :=
  { current_song := none
    volume := DEFAULT_VOLUME
    temp_audio_file := none
    duration := 0
    muted := false
    volume_before_mute := DEFAULT_VOLUME
    song_ended := false
    seeking := false
    last_seek_time := 0
    last_vlc_state := none
    retry_count := 0
    using_vlc := true
    vlc_media := none
    qt_media := none
    driver_volume := DEFAULT_VOLUME }

/-! ## Volume and mute (lines 536-615) -/

/-- `set_volume` (lines 536-552): clamps to 0-100, stores, and forwards the
clamped value to the active backend only when not muted (mute memory enabled). -/
def set_volume (env : Env) (s : PlayerState) (volume : Int) : PlayerState :=
  let v := max 0 (min 100 volume)
  let s1 := { s with volume := v }
  if !s1.muted || !ENABLE_MUTE_MEMORY then
    if s1.using_vlc && env.vlc_player then { s1 with driver_volume := v }
    else if env.qt_player then { s1 with driver_volume := v }
    else s1
  else s1

def get_volume (s : PlayerState) : Int :=
  s.volume

/-- `mute` (lines 558-578): only when not already muted, snapshots the stored
volume into `_volume_before_mute` and forces the backend volume to 0. -/
def mute (env : Env) (s : PlayerState) : PlayerState :=
  if !s.muted then
    let vbm := if ENABLE_MUTE_MEMORY then s.volume else DEFAULT_VOLUME
    let s1 := { s with volume_before_mute := vbm, muted := true }
    if s1.using_vlc && env.vlc_player then { s1 with driver_volume := 0 }
    else if env.qt_player then { s1 with driver_volume := 0 }
    else s1
  else s

/-- `unmute` (lines 580-590): only when muted, clears the flag and restores the
snapshot through `set_volume`. -/
def unmute (env : Env) (s : PlayerState) : PlayerState :=
  if s.muted then
    let s1 := { s with muted := false }
    let restore := if ENABLE_MUTE_MEMORY then s1.volume_before_mute else DEFAULT_VOLUME
    set_volume env s1 restore
  else s

/-- `toggle_mute` (lines 592-597): flips the mute state.  The Python body has
no `return` statement, so the call evaluates to `None` — modelled as `none` in
the `Option Bool` result slot. -/
def toggle_mute (env : Env) (s : PlayerState) : PlayerState × Option Bool :=
  if s.muted then (unmute env s, none) else (mute env s, none)

def is_muted (s : PlayerState) : Bool :=
  s.muted

/-! ## Temp-file cleanup (lines 617-634) -/

/-- `_cleanup_temp_files`: only when cleanup is enabled, a temp path is
registered and the file exists, attempt `os.remove`; the `finally` clause
clears the field whether or not the removal raised.  When the file does not
exist the whole branch is skipped and the field keeps its value. -/
def cleanup_temp_files (s : PlayerState) (fs : FS) : PlayerState × FS :=
  match s.temp_audio_file with
  | some p =>
    if TEMP_FILE_CLEANUP && os_path_exists fs p then
      let r := os_remove fs p
      ({ s with temp_audio_file := none }, r.1)
    else (s, fs)
  | none => (s, fs)

/-! ## File extension (`os.path.splitext(file_path)[1].lower()`, line 218) -/

/-- The characters of the path after the last path separator. -/
def basenameChars (p : String) : List Char :=
  ((p.data.reverse).takeWhile (fun c => !(c == '/' || c == '\\'))).reverse

/-- Index of the last dot of a basename, if any. -/
def lastDotIdx (b : List Char) : Option Nat :=
  ((List.range b.length).filter (fun i => b.get? i == some '.')).getLast?

/-- `os.path.splitext` extension part of a basename: the suffix from the last
dot, provided some earlier character of the basename is not itself a dot
(a purely leading-dot name such as `.bashrc` has no extension). -/
def extChars (b : List Char) : List Char :=
  match lastDotIdx b with
  | none => []
  | some i => if (b.take i).any (fun c => !(c == '.')) then b.drop i else []

/-- `os.path.splitext(file_path)[1].lower()`. -/
def file_ext (p : String) : String :=
  String.mk ((extChars (basenameChars p)).map Char.toLower)

/-! ## Backend loads and conversion (lines 263-358) -/

/-- `_load_with_vlc` (lines 263-284): requires the VLC player object; on
success binds the media to the VLC player.  The duration fetch it schedules
(`QTimer.singleShot(500, self._get_duration)`) runs later, outside this step,
so the stored duration is untouched here. -/
def load_with_vlc (env : Env) (s : PlayerState) (p : String) : PlayerState × Bool :=
  if !env.vlc_player then (s, false)
  else if env.vlc_load_ok p then ({ s with vlc_media := some p }, true)
  else (s, false)

/-- `_load_with_qt` (lines 286-303): requires the Qt player object; on success
binds the media content to the Qt player. -/
def load_with_qt (env : Env) (s : PlayerState) (p : String) : PlayerState × Bool :=
  if !env.qt_player then (s, false)
  else if env.qt_load_ok p then ({ s with qt_media := some p }, true)
  else (s, false)

/-- `_convert_audio_file` (lines 304-358): requires pydub and conversion
enabled; on success the exported WAV appears on disk and — cleanup being
enabled — its path is registered as the session's temp file. -/
def convert_audio_file (env : Env) (s : PlayerState) (fs : FS) (p : String) :
    PlayerState × FS × Option String :=
  if !env.pydub_available || !ENABLE_M4A_CONVERSION then (s, fs, none)
  else
    match env.convert_result p with
    | none => (s, fs, none)
    | some tmp =>
      let fs1 : FS := { fs with files := tmp :: fs.files }
      let s1 := if TEMP_FILE_CLEANUP then { s with temp_audio_file := some tmp } else s
      (s1, fs1, some tmp)

/-- `load_song`, lines 242-256: the conversion fallback taken once both
backends have failed on the original path — convert a `.m4a`/`.ogg`/`.flac`
file and load the converted WAV with Qt; any other outcome reaches the final
`raise`, caught into a `false` return. -/
def load_song_convert_stage (env : Env) (s : PlayerState) (fs : FS) (file_path : String) :
    PlayerState × FS × Bool :=
  let ext := file_ext file_path
  if (ext == ".m4a" || ext == ".ogg" || ext == ".flac") && env.pydub_available then
    let conv := convert_audio_file env s fs file_path
    match conv.2.2 with
    | some cpath =>
      let qtTry2 := if env.qt_player then load_with_qt env conv.1 cpath
                    else (conv.1, false)
      if qtTry2.2 then ({ qtTry2.1 with using_vlc := false }, conv.2.1, true)
      else (qtTry2.1, conv.2.1, false)
    | none => (conv.1, conv.2.1, false)
  else (s, fs, false)

/-- `load_song`, lines 220-256: the backend attempts for an existing file —
VLC first on the original path, then Qt on the original path (switching the
session to Qt on success), then the conversion fallback. -/
def load_song_backend_stage (env : Env) (s : PlayerState) (fs : FS) (file_path : String) :
    PlayerState × FS × Bool :=
  let vlcTry := if s.using_vlc && env.vlc_player then load_with_vlc env s file_path
                else (s, false)
  if vlcTry.2 then (vlcTry.1, fs, true)
  else
    let qtTry := if env.qt_player then load_with_qt env vlcTry.1 file_path
                 else (vlcTry.1, false)
    if qtTry.2 then ({ qtTry.1 with using_vlc := false }, fs, true)
    else load_song_convert_stage env qtTry.1 fs file_path

/-- `load_song` (lines 201-261): cleans the previous temp file, clears the
ended flag, stores the path as `current_song`, raises (caught, returning
`false` with `mediaLoaded(False)`) when the file does not exist, and otherwise
runs the backend attempts; nothing set earlier in the body is undone by the
exception handler.  Result: (state, file system, return value). -/
def load_song (env : Env) (s0 : PlayerState) (fs0 : FS) (file_path : String) :
    PlayerState × FS × Bool :=
  let c := cleanup_temp_files s0 fs0
  let s2 : PlayerState := { c.1 with song_ended := false, current_song := some file_path }
  if !(os_path_exists c.2 file_path) then (s2, c.2, false)
  else load_song_backend_stage env s2 c.2 file_path

/-! ## Transport commands (lines 360-421), seeking (lines 635-698) -/

/-- `play` (lines 360-393), given the VLC state the backend currently reports.
In the VLC branch the ended flag is cleared as soon as a media is present,
before the play command is issued; `elif` means the Qt branch is reached only
when the VLC branch does not apply at all. -/
def play (env : Env) (s : PlayerState) (st : VlcState) : PlayerState × Bool :=
  if s.using_vlc && env.vlc_player then
    if s.vlc_media.isSome then
      let s1 := { s with song_ended := false }
      if st != VlcState.Playing then
        if env.play_ok then (s1, true) else (s1, false)
      else (s1, true)
    else (s, false)
  else if env.qt_player then
    if s.qt_media.isSome then (s, true) else (s, false)
  else (s, false)

/-- `stop` (lines 408-421): stops the active driver, emits the Stopped state
and cleans the temp file. -/
def stop (env : Env) (s : PlayerState) (fs : FS) : PlayerState × FS × List Event :=
  let r := cleanup_temp_files s fs
  if s.using_vlc && env.vlc_player then (r.1, r.2, [Event.stateChanged 0])
  else (r.1, r.2, [])

def min_seek_interval : ℚ := 1 / MAX_SEEKS_PER_SECOND

/-- The VLC seek target of `set_position`:
`max(0.0, min(1.0, position / self.duration))` (line 659). -/
def seek_fraction (s : PlayerState) (position : Int) : ℚ :=
  max 0 (min 1 ((position : ℚ) / (s.duration : ℚ)))

/-- Result of one `set_position` call: the new state, whether the call passed
the rate gate (timestamp updated), whether a seek was handed to a driver, and
the fraction given to VLC if it was. -/
structure SeekResult where
  state : PlayerState
  accepted : Bool
  forwarded : Bool
  frac : Option ℚ
deriving DecidableEq, Repr

/-- `set_position` (lines 635-685), at wall-clock time `now`.  A call arriving
sooner than `1 / MAX_SEEKS_PER_SECOND` after the last accepted one returns at
once, leaving every field — the timestamp included — untouched.  An accepted
call records its time, sets the seeking flag, and in the VLC branch (known
positive duration) clears the ended flag and forwards the clamped fraction;
the Ended-state restart it may schedule (`pause` + delayed `play`) only issues
driver commands, and the delayed seeking-flag reset runs outside this step. -/
def set_position (env : Env) (s : PlayerState) (now : ℚ) (position : Int) : SeekResult :=
  if now - s.last_seek_time < min_seek_interval then
    { state := s, accepted := false, forwarded := false, frac := none }
  else
    let s1 := { s with last_seek_time := now }
    let s2 := if TRACK_SEEK_STATE then { s1 with seeking := true } else s1
    if s2.using_vlc && env.vlc_player && decide (0 < s2.duration) then
      let s3 := { s2 with song_ended := false }
      { state := s3, accepted := true, forwarded := true, frac := some (seek_fraction s2 position) }
    else if env.qt_player && decide (0 < s2.duration) then
      { state := s2, accepted := true, forwarded := true, frac := none }
    else
      { state := s2, accepted := true, forwarded := false, frac := none }

def get_duration (s : PlayerState) : Int :=
  s.duration

/-! ## Recovery (lines 476-534) -/

/-- `_attempt_recovery` (lines 476-511): below the retry cap, bump the counter
and stop the player — the actual reload is a delayed callback
(`QTimer.singleShot(RETRY_DELAY_MS, self._retry_load_current_song)`) outside
this step; at the cap, reset the counter and fall back to Qt once. -/
def attempt_recovery (env : Env) (s : PlayerState) : PlayerState × List Event :=
  if s.retry_count < MAX_RETRY_ATTEMPTS then
    ({ s with retry_count := s.retry_count + 1 }, [])
  else
    let s1 := { s with retry_count := 0 }
    match s1.current_song with
    | some p =>
      if ALLOW_ENGINE_FALLBACK && env.qt_player then
        let r := load_with_qt env { s1 with using_vlc := false } p
        if r.2 then (r.1, [Event.mediaLoaded true]) else (r.1, [Event.mediaLoaded false])
      else (s1, [])
    | none => (s1, [])

/-- `_retry_load_current_song` (lines 513-534): reload the current song with
VLC, resetting the retry counter on success; on failure recurse into
`_attempt_recovery` (which terminates since the counter is bounded). -/
def retry_load_current_song (env : Env) (s : PlayerState) (fs : FS) :
    PlayerState × List Event :=
  match s.current_song with
  | some p =>
    if os_path_exists fs p then
      let r := load_with_vlc env s p
      if r.2 then ({ r.1 with retry_count := 0 }, [Event.mediaLoaded true])
      else attempt_recovery env r.1
    else ({ s with retry_count := 0 }, [])
  | none => ({ s with retry_count := 0 }, [])

/-! ## Polling (lines 423-474 and 704-742) -/

/-- `_check_vlc_state` (lines 423-474), given the VLC state observed on this
tick.  Emission is edge-triggered on the observed state; the Ended branch is
additionally guarded by the ended flag and emits the normalized Stopped state
followed by the distinct `songEnded` event. -/
def check_vlc_state (env : Env) (s : PlayerState) (st : VlcState) :
    PlayerState × List Event :=
  if s.using_vlc && env.vlc_player && s.vlc_media.isSome then
    if (some st != s.last_vlc_state) || EMIT_REDUNDANT_STATES then
      let s1 := { s with last_vlc_state := some st }
      match st with
      | VlcState.Ended =>
        if !s1.song_ended then
          ({ s1 with song_ended := true }, [Event.stateChanged 0, Event.songEnded])
        else (s1, [])
      | VlcState.Playing => ({ s1 with song_ended := false }, [Event.stateChanged 1])
      | VlcState.Paused => (s1, [Event.stateChanged 2])
      | VlcState.Stopped => (s1, [Event.stateChanged 0])
      | VlcState.Error =>
        if AUTO_RECOVER_ON_ERROR && s1.current_song.isSome then
          attempt_recovery env s1
        else (s1, [])
      | _ => (s1, [])
    else (s, [])
  else (s, [])

/-- `_update_position` (lines 704-742), given the position fraction and the
VLC state observed on this tick: emits a position update when a positive
duration is known, then performs the same edge-triggered state handling as
`_check_vlc_state` (without the Error-recovery branch). -/
def update_position (env : Env) (s : PlayerState) (frac : ℚ) (st : VlcState) :
    PlayerState × List Event :=
  if s.using_vlc && env.vlc_player && s.vlc_media.isSome then
    let posEvents : List Event :=
      if 0 < s.duration ∧ 0 ≤ frac then [Event.positionChanged ⌊frac * (s.duration : ℚ)⌋]
      else []
    if some st != s.last_vlc_state then
      let s1 := { s with last_vlc_state := some st }
      match st with
      | VlcState.Ended =>
        if !s1.song_ended then
          ({ s1 with song_ended := true },
            posEvents ++ [Event.stateChanged 0, Event.songEnded])
        else (s1, posEvents)
      | VlcState.Playing => ({ s1 with song_ended := false }, posEvents ++ [Event.stateChanged 1])
      | VlcState.Paused => (s1, posEvents ++ [Event.stateChanged 2])
      | VlcState.Stopped => (s1, posEvents ++ [Event.stateChanged 0])
      | _ => (s1, posEvents)
    else (s, posEvents)
  else (s, [])

/-- One timer tick: either the 50 ms state-check timer or the 100 ms position
timer, with the backend observation it makes. -/
inductive Tick where
  | check (st : VlcState)
  | position (st : VlcState) (frac : ℚ)

def Tick.observed : Tick → VlcState
  | Tick.check st => st
  | Tick.position st _ => st

def tickStep (env : Env) (s : PlayerState) (t : Tick) : PlayerState × List Event :=
  match t with
  | Tick.check st => check_vlc_state env s st
  | Tick.position st frac => update_position env s frac st

/-- Run a sequence of timer ticks, concatenating the emitted events. -/
def runTicks (env : Env) (s : PlayerState) : List Tick → PlayerState × List Event
  | [] => (s, [])
  | t :: ts =>
    let r := tickStep env s t
    let r2 := runTicks env r.1 ts
    (r2.1, r.2 ++ r2.2)

/-- Run a sequence of timestamped `set_position` calls; returns the final
state, the times of the gate-accepted calls and the times of the
driver-forwarded calls, in order. -/
def runSeeks (env : Env) (s : PlayerState) : List (ℚ × Int) → PlayerState × List ℚ × List ℚ
  | [] => (s, [], [])
  | (t, pos) :: rest =>
    let r := set_position env s t pos
    let r2 := runSeeks env r.state rest
    (r2.1,
      (if r.accepted then t :: r2.2.1 else r2.2.1),
      (if r.forwarded then t :: r2.2.2 else r2.2.2))

/-- The events of a tick run that are state-machine notifications (normalized
state changes and the track-ended event), as opposed to position updates. -/
def isTransportEvent : Event → Bool
  | Event.stateChanged _ => true
  | Event.songEnded => true
  | _ => false

/-! ## Helper lemmas: which fields each operation can touch -/

theorem cleanup_temp_files_state (s : PlayerState) (fs : FS) :
    (cleanup_temp_files s fs).1 = s ∨
    (cleanup_temp_files s fs).1 = { s with temp_audio_file := none } := by
  unfold cleanup_temp_files
  cases h : s.temp_audio_file with
  | none => exact Or.inl rfl
  | some p =>
    dsimp only
    split
    · exact Or.inr rfl
    · exact Or.inl rfl

theorem load_with_vlc_state (env : Env) (s : PlayerState) (p : String) :
    (load_with_vlc env s p).1 = s ∨
    (load_with_vlc env s p).1 = { s with vlc_media := some p } := by
  unfold load_with_vlc
  split
  · exact Or.inl rfl
  · split
    · exact Or.inr rfl
    · exact Or.inl rfl

theorem load_with_qt_state (env : Env) (s : PlayerState) (p : String) :
    (load_with_qt env s p).1 = s ∨
    (load_with_qt env s p).1 = { s with qt_media := some p } := by
  unfold load_with_qt
  split
  · exact Or.inl rfl
  · split
    · exact Or.inr rfl
    · exact Or.inl rfl

theorem convert_audio_file_state (env : Env) (s : PlayerState) (fs : FS) (p : String) :
    (convert_audio_file env s fs p).1 = s ∨
    ∃ tmp, (convert_audio_file env s fs p).1 = { s with temp_audio_file := some tmp } := by
  unfold convert_audio_file
  split
  · exact Or.inl rfl
  · cases h : env.convert_result p with
    | none => exact Or.inl rfl
    | some tmp =>
      dsimp only
      exact Or.inr ⟨tmp, by simp [TEMP_FILE_CLEANUP]⟩

@[simp] theorem cleanup_temp_files_retry (s : PlayerState) (fs : FS) :
    (cleanup_temp_files s fs).1.retry_count = s.retry_count := by
  obtain h | h := cleanup_temp_files_state s fs <;> simp [h]

@[simp] theorem cleanup_temp_files_duration (s : PlayerState) (fs : FS) :
    (cleanup_temp_files s fs).1.duration = s.duration := by
  obtain h | h := cleanup_temp_files_state s fs <;> simp [h]

@[simp] theorem cleanup_temp_files_using_vlc (s : PlayerState) (fs : FS) :
    (cleanup_temp_files s fs).1.using_vlc = s.using_vlc := by
  obtain h | h := cleanup_temp_files_state s fs <;> simp [h]

@[simp] theorem load_with_vlc_retry (env : Env) (s : PlayerState) (p : String) :
    (load_with_vlc env s p).1.retry_count = s.retry_count := by
  obtain h | h := load_with_vlc_state env s p <;> simp [h]

@[simp] theorem load_with_vlc_duration (env : Env) (s : PlayerState) (p : String) :
    (load_with_vlc env s p).1.duration = s.duration := by
  obtain h | h := load_with_vlc_state env s p <;> simp [h]

@[simp] theorem load_with_vlc_current_song (env : Env) (s : PlayerState) (p : String) :
    (load_with_vlc env s p).1.current_song = s.current_song := by
  obtain h | h := load_with_vlc_state env s p <;> simp [h]

@[simp] theorem load_with_vlc_song_ended (env : Env) (s : PlayerState) (p : String) :
    (load_with_vlc env s p).1.song_ended = s.song_ended := by
  obtain h | h := load_with_vlc_state env s p <;> simp [h]

@[simp] theorem load_with_qt_retry (env : Env) (s : PlayerState) (p : String) :
    (load_with_qt env s p).1.retry_count = s.retry_count := by
  obtain h | h := load_with_qt_state env s p <;> simp [h]

@[simp] theorem load_with_qt_duration (env : Env) (s : PlayerState) (p : String) :
    (load_with_qt env s p).1.duration = s.duration := by
  obtain h | h := load_with_qt_state env s p <;> simp [h]

@[simp] theorem load_with_qt_current_song (env : Env) (s : PlayerState) (p : String) :
    (load_with_qt env s p).1.current_song = s.current_song := by
  obtain h | h := load_with_qt_state env s p <;> simp [h]

@[simp] theorem load_with_qt_song_ended (env : Env) (s : PlayerState) (p : String) :
    (load_with_qt env s p).1.song_ended = s.song_ended := by
  obtain h | h := load_with_qt_state env s p <;> simp [h]

@[simp] theorem convert_audio_file_retry (env : Env) (s : PlayerState) (fs : FS) (p : String) :
    (convert_audio_file env s fs p).1.retry_count = s.retry_count := by
  obtain h | ⟨tmp, h⟩ := convert_audio_file_state env s fs p <;> simp [h]

@[simp] theorem convert_audio_file_duration (env : Env) (s : PlayerState) (fs : FS) (p : String) :
    (convert_audio_file env s fs p).1.duration = s.duration := by
  obtain h | ⟨tmp, h⟩ := convert_audio_file_state env s fs p <;> simp [h]

@[simp] theorem convert_audio_file_current_song (env : Env) (s : PlayerState) (fs : FS)
    (p : String) :
    (convert_audio_file env s fs p).1.current_song = s.current_song := by
  obtain h | ⟨tmp, h⟩ := convert_audio_file_state env s fs p <;> simp [h]

@[simp] theorem convert_audio_file_song_ended (env : Env) (s : PlayerState) (fs : FS)
    (p : String) :
    (convert_audio_file env s fs p).1.song_ended = s.song_ended := by
  obtain h | ⟨tmp, h⟩ := convert_audio_file_state env s fs p <;> simp [h]

/-- The conversion fallback leaves retry counter, duration, current song and
ended flag untouched. -/
theorem load_song_convert_stage_fields (env : Env) (s : PlayerState) (fs : FS) (p : String) :
    (load_song_convert_stage env s fs p).1.retry_count = s.retry_count ∧
    (load_song_convert_stage env s fs p).1.duration = s.duration ∧
    (load_song_convert_stage env s fs p).1.current_song = s.current_song ∧
    (load_song_convert_stage env s fs p).1.song_ended = s.song_ended := by
  unfold load_song_convert_stage
  dsimp only
  split
  · split
    · cases hq : env.qt_player <;> simp [hq]
      all_goals (split <;> simp)
    · simp
  · exact ⟨rfl, rfl, rfl, rfl⟩

set_option maxRecDepth 8000 in
/-- The backend attempts leave retry counter, duration, current song and
ended flag untouched. -/
theorem load_song_backend_stage_fields (env : Env) (s : PlayerState) (fs : FS) (p : String) :
    (load_song_backend_stage env s fs p).1.retry_count = s.retry_count ∧
    (load_song_backend_stage env s fs p).1.duration = s.duration ∧
    (load_song_backend_stage env s fs p).1.current_song = s.current_song ∧
    (load_song_backend_stage env s fs p).1.song_ended = s.song_ended := by
  unfold load_song_backend_stage
  dsimp only
  cases hv : (s.using_vlc && env.vlc_player) <;>
    cases hq : env.qt_player <;>
      (repeat' split) <;>
        first
        | exact absurd rfl (by assumption)
        | simp [load_song_convert_stage_fields]

/-- Every branch of `load_song` leaves the retry counter and the stored
duration untouched, stores the requested path as the current song, and leaves
the ended flag cleared. -/
theorem load_song_fields (env : Env) (s : PlayerState) (fs : FS) (p : String) :
    (load_song env s fs p).1.retry_count = s.retry_count ∧
    (load_song env s fs p).1.duration = s.duration ∧
    (load_song env s fs p).1.current_song = some p ∧
    (load_song env s fs p).1.song_ended = false := by
  unfold load_song
  dsimp only
  obtain hc | hc := cleanup_temp_files_state s fs <;> rw [hc] <;>
  · split
    · simp
    · simp [load_song_backend_stage_fields]

theorem set_volume_volume (env : Env) (s : PlayerState) (v : Int) :
    (set_volume env s v).volume = max 0 (min 100 v) := by
  unfold set_volume
  dsimp only
  split_ifs <;> rfl

theorem set_volume_muted (env : Env) (s : PlayerState) (v : Int) :
    (set_volume env s v).muted = s.muted := by
  unfold set_volume
  dsimp only
  split_ifs <;> rfl

/-- An environment with both players constructed and no library succeeding on
any path. -/
def envNone : Env :=
  { vlc_player := true
    qt_player := true
    pydub_available := false
    vlc_load_ok := fun _ => false
    qt_load_ok := fun _ => false
    convert_result := fun _ => none
    play_ok := true }

/-! ## Claim C8 — volume clamping -/

/-- Claim C8: for every integer input v, `set_volume(v)` stores a volume in
[0,100]: inputs below 0 store 0, inputs above 100 store 100, in-range inputs
are stored unchanged — whether or not the session is muted. -/
theorem set_volume_clamps (env : Env) (s : PlayerState) (v : Int) :
    (0 ≤ (set_volume env s v).volume ∧ (set_volume env s v).volume ≤ 100) ∧
    (v < 0 → (set_volume env s v).volume = 0) ∧
    (100 < v → (set_volume env s v).volume = 100) ∧
    (0 ≤ v → v ≤ 100 → (set_volume env s v).volume = v) := by
  simp only [set_volume_volume, max_def, min_def]
  split_ifs <;> omega

/-- Concrete instances of claim C8 at inputs -5, 250 and 42, in a muted and in
an unmuted session. -/
theorem set_volume_clamps_witness :
    (set_volume envNone initState (-5)).volume = 0 ∧
    (set_volume envNone initState 250).volume = 100 ∧
    (set_volume envNone { initState with muted := true } 42).volume = 42 :=
  ⟨(set_volume_clamps envNone initState (-5)).2.1 (by decide),
   (set_volume_clamps envNone initState 250).2.2.1 (by decide),
   (set_volume_clamps envNone { initState with muted := true } 42).2.2.2
     (by decide) (by decide)⟩

/-! ## Claim C9 — toggle_mute -/

/-- Claim C9, counterexample: the spec says `toggle_mute() -> bool(is_muted)`,
but the Python function body has no return statement, so from the unmuted
initial state the call mutes the session yet returns `None`, not the resulting
muted state `true`. -/
theorem toggle_mute_return_counterexample :
    (toggle_mute envNone initState).2 = none ∧
    is_muted (toggle_mute envNone initState).1 = true ∧
    (toggle_mute envNone initState).2 ≠ some (is_muted (toggle_mute envNone initState).1) := by
  refine ⟨by decide, by decide, by decide⟩

theorem mute_muted (env : Env) (s : PlayerState) (h : s.muted = false) :
    (mute env s).muted = true := by
  unfold mute
  simp only [h, Bool.not_false, if_true]
  split_ifs <;> rfl

theorem unmute_muted (env : Env) (s : PlayerState) (h : s.muted = true) :
    (unmute env s).muted = false := by
  unfold unmute
  simp only [h, if_true]
  rw [set_volume_muted]

/-- Claim C9, amended: `toggle_mute()` flips the mute state (muting when
unmuted, unmuting when muted), and the resulting state is reported by
`is_muted()`; but the call itself returns `None` (no value), not the resulting
boolean. -/
theorem toggle_mute_flips_and_returns_none (env : Env) (s : PlayerState) :
    (toggle_mute env s).1.muted = !s.muted ∧
    (toggle_mute env s).2 = none ∧
    is_muted (toggle_mute env s).1 = !is_muted s := by
  unfold is_muted
  cases hm : s.muted
  · have h1 : toggle_mute env s = (mute env s, none) := by
      simp [toggle_mute, hm]
    rw [h1]
    exact ⟨mute_muted env s hm, rfl, mute_muted env s hm⟩
  · have h1 : toggle_mute env s = (unmute env s, none) := by
      simp [toggle_mute, hm]
    rw [h1]
    exact ⟨unmute_muted env s hm, rfl, unmute_muted env s hm⟩

/-! ## Claim C7 — temp-file cleanup -/

def fsEmpty : FS :=
  { files := []
    locked := [] }

/-- Claim C7, counterexample: with a registered temp path whose file is
missing from disk, `_cleanup_temp_files` skips its whole body (the existence
test fails), so the temp-file field is NOT cleared — refuting the claimed
mechanism "the temp-file field is cleared even when … the file is missing". -/
theorem cleanup_missing_file_counterexample :
    (cleanup_temp_files { initState with temp_audio_file := some "t.wav" } fsEmpty).1.temp_audio_file
      ≠ none := by
  decide

/-- Claim C7, amended: `_cleanup_temp_files` is idempotent and total (every
failure of `os.remove` is caught): a second call leaves both the session state
and the file system exactly as one call does.  The temp-file field is cleared
by the `finally` clause whenever deletion is attempted — even when `os.remove`
fails — but is left set when the registered file is missing, in which case the
call is a no-op anyway, so idempotence still holds; and since the session owns
at most one temp path and `load()` cleans before converting, two `load()`
calls never leave two temp files owned by the session. -/
theorem cleanup_temp_files_idempotent (s : PlayerState) (fs : FS) :
    cleanup_temp_files (cleanup_temp_files s fs).1 (cleanup_temp_files s fs).2 =
      cleanup_temp_files s fs := by
  rcases h : s.temp_audio_file with _ | p
  · have h1 : cleanup_temp_files s fs = (s, fs) := by
      unfold cleanup_temp_files
      rw [h]
    rw [h1]
    exact h1
  · cases hE : os_path_exists fs p
    · have h1 : cleanup_temp_files s fs = (s, fs) := by
        unfold cleanup_temp_files
        rw [h]
        simp [hE]
      rw [h1]
      exact h1
    · have h1 : cleanup_temp_files s fs =
          ({ s with temp_audio_file := none }, (os_remove fs p).1) := by
        unfold cleanup_temp_files
        rw [h]
        simp [hE, TEMP_FILE_CLEANUP]
      rw [h1]
      rfl

/-! ## Claim C1 — load and the retry counter -/

def fsSong : FS :=
  { files := ["song.mp3"]
    locked := [] }

/-- Claim C1, counterexample: with the retry counter at 2 (after two simulated
recovery failures), a fresh `load_song` call leaves it at 2 — `load_song`
never resets `_retry_count`, so the claim "a new load() call leaves
retry_count equal to 0" fails. -/
theorem load_song_retry_counterexample :
    (load_song envNone { initState with retry_count := 2 } fsSong "song.mp3").1.retry_count
      ≠ 0 := by
  decide

/-- Claim C1, amended: `load_song` leaves `_retry_count` unchanged (it is
reset to 0 only by the recovery machinery: a successful retry reload, a
missing current song, or exhausting `MAX_RETRY_ATTEMPTS`), so after recovery
failures incremented it, a fresh `load()` call keeps the incremented value
whether or not the load succeeds. -/
theorem load_song_preserves_retry_count (env : Env) (s : PlayerState) (fs : FS) (p : String) :
    (load_song env s fs p).1.retry_count = s.retry_count :=
  (load_song_fields env s fs p).1

/-! ## Claim C2 — load failure and the current track -/

def fsX : FS :=
  { files := ["x.mp3"]
    locked := [] }

/-- Claim C2, counterexample: when every loader fails, `load_song` returns
`false` but `current_song` still holds the attempted path — it was assigned
before the backend attempts and the exception handler does not clear it — so
"current_song holds no track after a failed load" fails. -/
theorem load_song_failure_counterexample :
    (load_song envNone initState fsX "x.mp3").2.2 = false ∧
    (load_song envNone initState fsX "x.mp3").1.current_song ≠ none := by
  refine ⟨by decide, by decide⟩

/-- Claim C2, amended: when `load_song` exhausts all options it returns
`false`, but the session is not left in a no-track state: `current_song`
retains the attempted path rather than being cleared. -/
theorem load_song_failure_retains_current_song (env : Env) (s : PlayerState) (fs : FS)
    (p : String) (_hfail : (load_song env s fs p).2.2 = false) :
    (load_song env s fs p).1.current_song = some p :=
  (load_song_fields env s fs p).2.2.1

/-- Concrete instance of amended claim C2: a failed load of `x.mp3` keeps
`x.mp3` as the current song. -/
theorem load_song_failure_retains_current_song_witness :
    (load_song envNone initState fsX "x.mp3").1.current_song = some "x.mp3" :=
  load_song_failure_retains_current_song envNone initState fsX "x.mp3" (by decide)

/-! ## Claim C10 — load keeps the stale duration -/

/-- Claim C10: `load_song` never touches the stored duration (no branch
assigns it; VLC duration arrives only through the delayed `_get_duration`
callback), so after a load `get_duration()` still answers with the previous
track's duration and `set_position` converts milliseconds to a seek fraction
using that stale value. -/
theorem load_song_preserves_duration (env : Env) (s : PlayerState) (fs : FS) (p : String) :
    (load_song env s fs p).1.duration = s.duration ∧
    get_duration (load_song env s fs p).1 = get_duration s ∧
    ∀ pos : Int, seek_fraction (load_song env s fs p).1 pos = seek_fraction s pos := by
  have h := (load_song_fields env s fs p).2.1
  refine ⟨h, h, fun pos => ?_⟩
  unfold seek_fraction
  rw [h]

/-! ## Claim C6 — mute round-trip -/

theorem set_volume_while_muted (env : Env) (s : PlayerState) (v : Int)
    (h : s.muted = true) :
    set_volume env s v = { s with volume := max 0 (min 100 v) } := by
  unfold set_volume
  dsimp only
  rw [h]
  simp [ENABLE_MUTE_MEMORY]

theorem set_volume_unmuted_vlc (env : Env) (s : PlayerState) (v : Int)
    (hm : s.muted = false) (hv : s.using_vlc = true) (he : env.vlc_player = true) :
    set_volume env s v =
      { s with volume := max 0 (min 100 v), driver_volume := max 0 (min 100 v) } := by
  unfold set_volume
  dsimp only
  rw [hm, hv, he]
  simp

theorem mute_eq (env : Env) (s : PlayerState)
    (hm : s.muted = false) (hv : s.using_vlc = true) (he : env.vlc_player = true) :
    mute env s =
      { s with muted := true, volume_before_mute := s.volume, driver_volume := 0 } := by
  unfold mute
  dsimp only
  rw [hm, hv, he]
  simp [ENABLE_MUTE_MEMORY]

theorem unmute_eq (env : Env) (s : PlayerState) (hm : s.muted = true) :
    unmute env s = set_volume env { s with muted := false } s.volume_before_mute := by
  unfold unmute
  dsimp only
  rw [hm]
  simp [ENABLE_MUTE_MEMORY]

/-- While muted, `set_volume` updates only the stored volume: the driver
volume, the mute flag, the pre-mute snapshot and the active backend are all
untouched, however many calls are made. -/
theorem foldl_set_volume_muted (env : Env) :
    ∀ (ws : List Int) (s : PlayerState), s.muted = true →
      (ws.foldl (fun st w => set_volume env st w) s).muted = true ∧
      (ws.foldl (fun st w => set_volume env st w) s).driver_volume = s.driver_volume ∧
      (ws.foldl (fun st w => set_volume env st w) s).volume_before_mute = s.volume_before_mute ∧
      (ws.foldl (fun st w => set_volume env st w) s).using_vlc = s.using_vlc
  | [], s, h => ⟨h, rfl, rfl, rfl⟩
  | w :: ws, s, h => by
    have hsv := set_volume_while_muted env s w h
    dsimp only [List.foldl]
    rw [hsv]
    exact foldl_set_volume_muted env ws { s with volume := max 0 (min 100 w) } h

/-- Claim C6: with the session not muted, stored volume V in [0,100] and the
VLC backend active, `mute()` snapshots V into `_volume_before_mute` and forces
the driver volume to 0; `set_volume` calls made while muted never reach the
driver (it stays at 0); and `unmute()` restores both the stored and the
driver volume to exactly V through `set_volume`. -/
theorem mute_unmute_round_trip (env : Env) (s : PlayerState) (ws : List Int)
    (hm : s.muted = false) (h0 : 0 ≤ s.volume) (h100 : s.volume ≤ 100)
    (hv : s.using_vlc = true) (he : env.vlc_player = true) :
    (mute env s).volume_before_mute = s.volume ∧
    (mute env s).driver_volume = 0 ∧
    (ws.foldl (fun st w => set_volume env st w) (mute env s)).driver_volume = 0 ∧
    (unmute env (ws.foldl (fun st w => set_volume env st w) (mute env s))).volume = s.volume ∧
    (unmute env (ws.foldl (fun st w => set_volume env st w) (mute env s))).driver_volume
      = s.volume := by
  have hclamp : max 0 (min 100 s.volume) = s.volume := by
    rw [min_eq_right h100, max_eq_right h0]
  have hmeq := mute_eq env s hm hv he
  obtain ⟨hf1, hf2, hf3, hf4⟩ :=
    foldl_set_volume_muted env ws (mute env s) (by rw [hmeq])
  have hun := unmute_eq env _ hf1
  have hmidu : (ws.foldl (fun st w => set_volume env st w) (mute env s)).using_vlc = true := by
    rw [hf4, hmeq]
    exact hv
  have hmidv : (ws.foldl (fun st w => set_volume env st w) (mute env s)).volume_before_mute
      = s.volume := by
    rw [hf3, hmeq]
  have hsv := set_volume_unmuted_vlc env
    { ws.foldl (fun st w => set_volume env st w) (mute env s) with muted := false }
    (ws.foldl (fun st w => set_volume env st w) (mute env s)).volume_before_mute
    rfl hmidu he
  refine ⟨by rw [hmeq], by rw [hmeq], by rw [hf2, hmeq], ?_, ?_⟩
  · rw [hun, hsv]
    show max 0 (min 100 _) = s.volume
    rw [hmidv]
    exact hclamp
  · rw [hun, hsv]
    show max 0 (min 100 _) = s.volume
    rw [hmidv]
    exact hclamp

/-- Concrete instance of claim C6: volume 33, two rejected `set_volume` calls
(5 and 200) while muted, then unmute restores stored and driver volume 33. -/
theorem mute_unmute_round_trip_witness :
    (unmute envNone ([5, 200].foldl (fun st w => set_volume envNone st w)
        (mute envNone { initState with volume := 33, driver_volume := 33 }))).volume = 33 ∧
    (unmute envNone ([5, 200].foldl (fun st w => set_volume envNone st w)
        (mute envNone { initState with volume := 33, driver_volume := 33 }))).driver_volume
      = 33 := by
  have h := mute_unmute_round_trip envNone
    { initState with volume := 33, driver_volume := 33 } [5, 200]
    (by decide) (by decide) (by decide) (by decide) (by decide)
  exact ⟨h.2.2.2.1, h.2.2.2.2⟩

/-! ## Claim C3 — transcode order for NeedsTranscode formats -/

def envVlcM4a : Env :=
  { vlc_player := true
    qt_player := true
    pydub_available := true
    vlc_load_ok := fun p => p == "a.m4a"
    qt_load_ok := fun _ => false
    convert_result := fun _ => none
    play_ok := true }

def fsA : FS :=
  { files := ["a.m4a"]
    locked := [] }

/-- Claim C3, counterexample: loading `a.m4a` with the transcoding library
available succeeds directly on VLC with the ORIGINAL path — no transcode
happens first, no temp file is recorded, and the VLC backend holds the
original path — refuting "transcodes the file first … before (rather than
after) attempting to load the original path on the backend drivers". -/
theorem load_song_m4a_counterexample :
    (load_song envVlcM4a initState fsA "a.m4a").2.2 = true ∧
    (load_song envVlcM4a initState fsA "a.m4a").1.temp_audio_file = none ∧
    (load_song envVlcM4a initState fsA "a.m4a").1.vlc_media = some "a.m4a" := by
  refine ⟨by decide, by decide, by decide⟩

/-- Claim C3, amended: for a `.m4a`/`.ogg`/`.flac` file with the transcoding
library available, `load_song` transcodes only AFTER both backends have failed
on the original path: when VLC and Qt both reject the original and conversion
succeeds, the converted WAV is loaded with Qt, its path is recorded as the
session's `temp_file`, and the session switches to the Qt engine. -/
theorem load_song_transcodes_after_backends (env : Env) (s : PlayerState) (fs : FS)
    (p c : String)
    (hext : (file_ext p == ".m4a" || file_ext p == ".ogg" || file_ext p == ".flac") = true)
    (hpy : env.pydub_available = true)
    (hvl : env.vlc_load_ok p = false)
    (hqp : env.qt_player = true)
    (hql : env.qt_load_ok p = false)
    (hcv : env.convert_result p = some c)
    (hqc : env.qt_load_ok c = true)
    (htemp : s.temp_audio_file = none)
    (hex : os_path_exists fs p = true) :
    (load_song env s fs p).2.2 = true ∧
    (load_song env s fs p).1.temp_audio_file = some c ∧
    (load_song env s fs p).1.qt_media = some c ∧
    (load_song env s fs p).1.using_vlc = false := by
  have hclean : cleanup_temp_files s fs = (s, fs) := by
    unfold cleanup_temp_files
    rw [htemp]
  simp [load_song, load_song_backend_stage, load_song_convert_stage, load_with_vlc,
    load_with_qt, convert_audio_file, hclean, hex, hext, hpy, hvl, hqp, hql, hcv, hqc,
    ENABLE_M4A_CONVERSION, TEMP_FILE_CLEANUP]

def envConvM4a : Env :=
  { vlc_player := true
    qt_player := true
    pydub_available := true
    vlc_load_ok := fun _ => false
    qt_load_ok := fun q => q == "c.wav"
    convert_result := fun q => if q == "b.m4a" then some "c.wav" else none
    play_ok := true }

def fsB : FS :=
  { files := ["b.m4a"]
    locked := [] }

/-- Concrete instance of amended claim C3: both backends reject `b.m4a`, the
conversion produces `c.wav`, Qt loads it, and the session records it as the
temp file. -/
theorem load_song_transcodes_after_backends_witness :
    (load_song envConvM4a initState fsB "b.m4a").2.2 = true ∧
    (load_song envConvM4a initState fsB "b.m4a").1.temp_audio_file = some "c.wav" ∧
    (load_song envConvM4a initState fsB "b.m4a").1.qt_media = some "c.wav" ∧
    (load_song envConvM4a initState fsB "b.m4a").1.using_vlc = false :=
  load_song_transcodes_after_backends envConvM4a initState fsB "b.m4a" "c.wav"
    (by decide) (by decide) (by decide) (by decide) (by decide) (by decide) (by decide)
    (by decide) (by decide)

/-! ## Claim C4 — end-of-track signals exactly once -/

/-- `play` clears the already-signaled-ended flag as soon as the VLC branch
sees a bound media, before the play command is even issued. -/
theorem play_clears_song_ended (env : Env) (s : PlayerState) (st : VlcState)
    (hu : s.using_vlc = true) (he : env.vlc_player = true) (hm : s.vlc_media.isSome = true) :
    (play env s st).1.song_ended = false := by
  unfold play
  rw [hu, he, hm]
  dsimp only
  split_ifs <;> first
  | rfl
  | exact absurd rfl (by assumption)

theorem if_cond_true {α : Sort _} {c : Bool} (hc : c = true) (a b : α) :
    (if c = true then a else b) = a := by
  rw [hc]
  exact if_pos rfl

theorem if_cond_false {α : Sort _} {c : Bool} (hc : c = false) (a b : α) :
    (if c = true then a else b) = b := by
  rw [hc]
  exact if_neg (by simp)

/-- Once the ended flag is set and the last observed state is already Ended,
a further tick observing Ended changes nothing and emits no transport event. -/
theorem tick_after_signal (env : Env) (s : PlayerState)
    (_h1 : s.song_ended = true) (h2 : s.last_vlc_state = some VlcState.Ended)
    (t : Tick) (ht : t.observed = VlcState.Ended) :
    (tickStep env s t).1 = s ∧ (tickStep env s t).2.filter isTransportEvent = [] := by
  cases t with
  | check st =>
    have hst : st = VlcState.Ended := ht
    subst hst
    unfold tickStep check_vlc_state
    rw [h2]
    cases hg : (s.using_vlc && env.vlc_player && s.vlc_media.isSome) <;> exact ⟨rfl, rfl⟩
  | position st frac =>
    have hst : st = VlcState.Ended := ht
    subst hst
    unfold tickStep update_position
    rw [h2]
    cases hg : (s.using_vlc && env.vlc_player && s.vlc_media.isSome)
    · exact ⟨rfl, rfl⟩
    · refine ⟨rfl, ?_⟩
      show List.filter isTransportEvent
          (if 0 < s.duration ∧ 0 ≤ frac then [Event.positionChanged ⌊frac * (s.duration : ℚ)⌋]
            else []) = []
      by_cases hd : (0 < s.duration ∧ 0 ≤ frac)
      · rw [if_pos hd]
        rfl
      · rw [if_neg hd]
        rfl

/-- From a state where the track has not yet been signaled as ended and the
last observed state is not Ended, a tick observing Ended sets the flag,
records Ended as the last state and emits exactly the normalized Stopped
change followed by the distinct `songEnded` event. -/
theorem tick_first_signal (env : Env) (s : PlayerState)
    (hu : s.using_vlc = true) (he : env.vlc_player = true) (hm : s.vlc_media.isSome = true)
    (h1 : s.song_ended = false) (h2 : s.last_vlc_state ≠ some VlcState.Ended)
    (t : Tick) (ht : t.observed = VlcState.Ended) :
    (tickStep env s t).1
      = { s with song_ended := true, last_vlc_state := some VlcState.Ended } ∧
    (tickStep env s t).2.filter isTransportEvent
      = [Event.stateChanged 0, Event.songEnded] := by
  have h2' : (some VlcState.Ended != s.last_vlc_state) = true := by
    simp only [bne_iff_ne, ne_eq]
    exact fun hh => h2 hh.symm
  cases t with
  | check st =>
    have hst : st = VlcState.Ended := ht
    subst hst
    unfold tickStep check_vlc_state
    dsimp only
    rw [hu, he, hm, h2']
    cases hs : s.song_ended
    · exact ⟨rfl, rfl⟩
    · exact absurd (hs.symm.trans h1) (by decide)
  | position st frac =>
    have hst : st = VlcState.Ended := ht
    subst hst
    unfold tickStep update_position
    dsimp only
    rw [hu, he, hm, h2']
    cases hs : s.song_ended
    · refine ⟨rfl, ?_⟩
      show List.filter isTransportEvent
          ((if 0 < s.duration ∧ 0 ≤ frac then [Event.positionChanged ⌊frac * (s.duration : ℚ)⌋]
              else []) ++ [Event.stateChanged 0, Event.songEnded])
        = [Event.stateChanged 0, Event.songEnded]
      rw [List.filter_append]
      by_cases hd : (0 < s.duration ∧ 0 ≤ frac)
      · rw [if_pos hd]
        rfl
      · rw [if_neg hd]
        rfl
    · exact absurd (hs.symm.trans h1) (by decide)

/-- After the one signal, any run of further Ended observations leaves the
state unchanged and emits no transport event. -/
theorem runTicks_after_signal (env : Env) :
    ∀ (ticks : List Tick) (s : PlayerState),
      s.song_ended = true → s.last_vlc_state = some VlcState.Ended →
      (∀ t ∈ ticks, t.observed = VlcState.Ended) →
      (runTicks env s ticks).1 = s ∧
      (runTicks env s ticks).2.filter isTransportEvent = []
  | [], _, _, _, _ => ⟨rfl, rfl⟩
  | t :: ts, s, h1, h2, hobs => by
    obtain ⟨ha, hb⟩ := tick_after_signal env s h1 h2 t (hobs t (by simp))
    have hobs' : ∀ u ∈ ts, u.observed = VlcState.Ended := fun u hu => hobs u (by simp [hu])
    obtain ⟨hc, hd⟩ := runTicks_after_signal env ts s h1 h2 hobs'
    unfold runTicks
    dsimp only
    rw [ha, hc]
    refine ⟨rfl, ?_⟩
    rw [List.filter_append, hb, hd]
    rfl

/-- Claim C4: when polling observes the backend's native Ended state on
consecutive ticks (any mix of the state-check and position timers), the
distinct `songEnded` event is raised exactly once — the transport events of
the whole run are exactly one normalized Stopped change immediately followed
by one `songEnded` — and no further signal occurs until the flag is cleared,
which the next `load_song` does unconditionally and the next `play` does as
soon as a media is bound. -/
theorem song_ended_signaled_exactly_once (env : Env) (s : PlayerState) (ticks : List Tick)
    (hu : s.using_vlc = true) (he : env.vlc_player = true) (hm : s.vlc_media.isSome = true)
    (h1 : s.song_ended = false) (h2 : s.last_vlc_state ≠ some VlcState.Ended)
    (hne : ticks ≠ []) (hobs : ∀ t ∈ ticks, t.observed = VlcState.Ended) :
    (runTicks env s ticks).2.filter isTransportEvent
      = [Event.stateChanged 0, Event.songEnded] ∧
    (runTicks env s ticks).1.song_ended = true ∧
    (∀ env2 s2 fs p, (load_song env2 s2 fs p).1.song_ended = false) ∧
    (∀ env2 st, env2.vlc_player = true →
      (play env2 (runTicks env s ticks).1 st).1.song_ended = false) := by
  obtain ⟨t, ts, rfl⟩ : ∃ t ts, ticks = t :: ts := by
    cases ticks with
    | nil => exact absurd rfl hne
    | cons a b => exact ⟨a, b, rfl⟩
  obtain ⟨ha, hb⟩ := tick_first_signal env s hu he hm h1 h2 t (hobs t (by simp))
  have hobs' : ∀ u ∈ ts, u.observed = VlcState.Ended := fun u hu2 => hobs u (by simp [hu2])
  obtain ⟨hc, hd⟩ := runTicks_after_signal env ts (tickStep env s t).1
    (by rw [ha]) (by rw [ha]) hobs'
  have hrun : runTicks env s (t :: ts) =
      ((runTicks env (tickStep env s t).1 ts).1,
        (tickStep env s t).2 ++ (runTicks env (tickStep env s t).1 ts).2) := rfl
  rw [hrun]
  refine ⟨by rw [List.filter_append, hb, hd, List.append_nil], ?_, ?_, ?_⟩
  · rw [hc, ha]
  · exact fun env2 s2 fs p => (load_song_fields env2 s2 fs p).2.2.2
  · intro env2 st he2
    refine play_clears_song_ended env2 _ st ?_ he2 ?_
    · rw [hc, ha]
      exact hu
    · rw [hc, ha]
      exact hm

def sEndedW : PlayerState :=
  { initState with vlc_media := some "w.mp3" }

/-- Concrete instance of claim C4: three consecutive ticks (two state checks
and one position tick) all observing Ended raise exactly one Stopped change
and one `songEnded`. -/
theorem song_ended_signaled_exactly_once_witness :
    (runTicks envNone sEndedW
        [Tick.check VlcState.Ended, Tick.check VlcState.Ended,
          Tick.position VlcState.Ended 0]).2.filter isTransportEvent
      = [Event.stateChanged 0, Event.songEnded] :=
  (song_ended_signaled_exactly_once envNone sEndedW
    [Tick.check VlcState.Ended, Tick.check VlcState.Ended, Tick.position VlcState.Ended 0]
    (by decide) (by decide) (by decide) (by decide) (by decide) (List.cons_ne_nil _ _)
    (by decide)).1

/-! ## Claim C5 — seek rate limiting -/

/-- A `set_position` call inside the rate window returns silently: the state —
the last-seek timestamp included — is untouched, nothing is forwarded. -/
theorem set_position_dropped (env : Env) (s : PlayerState) (now : ℚ) (pos : Int)
    (h : now - s.last_seek_time < min_seek_interval) :
    set_position env s now pos = ⟨s, false, false, none⟩ := by
  unfold set_position
  rw [if_pos h]

/-- An accepted `set_position` call records its own time as the last accepted
seek time and leaves duration and backend selection unchanged. -/
theorem set_position_accepted (env : Env) (s : PlayerState) (now : ℚ) (pos : Int)
    (h : ¬(now - s.last_seek_time < min_seek_interval)) :
    (set_position env s now pos).accepted = true ∧
    (set_position env s now pos).state.last_seek_time = now := by
  unfold set_position
  rw [if_neg h]
  dsimp only
  split_ifs <;> exact ⟨rfl, rfl⟩

/-- A seek is handed to a driver only when the call passed the rate gate. -/
theorem set_position_forwarded_accepted (env : Env) (s : PlayerState) (now : ℚ) (pos : Int)
    (h : (set_position env s now pos).forwarded = true) :
    (set_position env s now pos).accepted = true := by
  by_cases hg : now - s.last_seek_time < min_seek_interval
  · rw [set_position_dropped env s now pos hg] at h
    exact absurd h Bool.false_ne_true
  · exact (set_position_accepted env s now pos hg).1

/-- The accepted seek times form a chain with gaps of at least the minimum
seek interval, starting from the session's last accepted seek time. -/
theorem runSeeks_accepted_chain (env : Env) :
    ∀ (calls : List (ℚ × Int)) (s : PlayerState),
      List.Chain (fun x y => x + min_seek_interval ≤ y) s.last_seek_time
        (runSeeks env s calls).2.1
  | [], _ => List.Chain.nil
  | (t, pos) :: rest, s => by
    unfold runSeeks
    dsimp only
    by_cases hg : t - s.last_seek_time < min_seek_interval
    · rw [set_position_dropped env s t pos hg]
      exact runSeeks_accepted_chain env rest s
    · obtain ⟨ha, hl⟩ := set_position_accepted env s t pos hg
      rw [ha]
      have ih := runSeeks_accepted_chain env rest (set_position env s t pos).state
      rw [hl] at ih
      exact List.chain_cons.mpr ⟨by linarith [not_lt.mp hg], ih⟩

/-- No more seeks are forwarded than are accepted. -/
theorem runSeeks_forwarded_length (env : Env) :
    ∀ (calls : List (ℚ × Int)) (s : PlayerState),
      (runSeeks env s calls).2.2.length ≤ (runSeeks env s calls).2.1.length
  | [], _ => Nat.le_refl 0
  | (t, pos) :: rest, s => by
    unfold runSeeks
    dsimp only
    by_cases hf : (set_position env s t pos).forwarded = true
    · rw [hf, set_position_forwarded_accepted env s t pos hf]
      exact Nat.succ_le_succ (runSeeks_forwarded_length env rest _)
    · rw [Bool.not_eq_true] at hf
      rw [hf]
      cases hac : (set_position env s t pos).accepted
      · exact runSeeks_forwarded_length env rest _
      · exact Nat.le_trans (runSeeks_forwarded_length env rest _) (Nat.le_succ _)

/-- Every accepted seek time is the timestamp of one of the issued calls. -/
theorem runSeeks_accepted_mem (env : Env) :
    ∀ (calls : List (ℚ × Int)) (s : PlayerState),
      ∀ x ∈ (runSeeks env s calls).2.1, x ∈ calls.map Prod.fst
  | [], _ => by
    intro x hx
    exact absurd hx (by simp [runSeeks])
  | (t, pos) :: rest, s => by
    unfold runSeeks
    dsimp only
    intro x hx
    cases hac : (set_position env s t pos).accepted <;> rw [hac] at hx
    · exact List.mem_cons_of_mem _ (runSeeks_accepted_mem env rest _ x hx)
    · rcases List.mem_cons.mp hx with rfl | hx2
      · exact List.mem_cons_self _ _
      · exact List.mem_cons_of_mem _ (runSeeks_accepted_mem env rest _ x hx2)

/-- Along a chain with gaps of at least `d`, the last element exceeds the
first by at least `length * d`. -/
theorem chain_add_le_getLast (d : ℚ) :
    ∀ (t : ℚ) (l : List ℚ), List.Chain (fun x y => x + d ≤ y) t l →
      t + (l.length : ℚ) * d ≤ (t :: l).getLast (List.cons_ne_nil t l)
  | _, [], _ => by simp
  | t, y :: l, h => by
    obtain ⟨h1, h2⟩ := List.chain_cons.mp h
    have ih := chain_add_le_getLast d y l h2
    have hgl : (t :: y :: l).getLast (List.cons_ne_nil t (y :: l))
        = (y :: l).getLast (List.cons_ne_nil y l) := List.getLast_cons (List.cons_ne_nil y l)
    rw [hgl]
    have hexp : t + ((y :: l).length : ℚ) * d = (t + d) + (l.length : ℚ) * d := by
      push_cast [List.length_cons]
      ring
    rw [hexp]
    linarith

/-- At most ten chained seek times fit in a window of one second. -/
theorem accepted_in_window_le_ten (lastT a : ℚ) (l : List ℚ)
    (hc : List.Chain (fun x y => x + min_seek_interval ≤ y) lastT l)
    (hw : ∀ x ∈ l, a ≤ x ∧ x < a + 1) : l.length ≤ 10 := by
  cases l with
  | nil => simp
  | cons t rest =>
    obtain ⟨h1, h2⟩ := List.chain_cons.mp hc
    have hlast := chain_add_le_getLast min_seek_interval t rest h2
    have hmem := List.getLast_mem (List.cons_ne_nil t rest)
    have hlt := (hw _ hmem).2
    have hge := (hw t (List.mem_cons_self t rest)).1
    have hint : min_seek_interval = 1 / 10 := by
      norm_num [min_seek_interval, MAX_SEEKS_PER_SECOND]
    rw [hint] at hlast
    have hq : (rest.length : ℚ) < 10 := by linarith
    have hn : rest.length < 10 := by exact_mod_cast hq
    simp only [List.length_cons]
    omega

/-- Claim C5: with `MAX_SEEKS_PER_SECOND = 10`, a `set_position` call arriving
within 1/10 s of the previously accepted seek returns silently without error,
leaving every session field — the last-seek timestamp included — untouched
(dropped, not queued); a seek reaches a driver only when at least 1/10 s has
elapsed since the previously accepted seek; consequently a sequence of calls
whose timestamps all lie within one second produces at most 10
driver-forwarded seeks. -/
theorem seek_rate_limiting (env : Env) (s : PlayerState) (calls : List (ℚ × Int)) (a : ℚ)
    (hw : ∀ c ∈ calls, a ≤ c.1 ∧ c.1 < a + 1) :
    (∀ now pos, now - s.last_seek_time < min_seek_interval →
      set_position env s now pos = ⟨s, false, false, none⟩) ∧
    (∀ now pos, (set_position env s now pos).forwarded = true →
      s.last_seek_time + min_seek_interval ≤ now) ∧
    (runSeeks env s calls).2.2.length ≤ 10 := by
  refine ⟨fun now pos h => set_position_dropped env s now pos h, ?_, ?_⟩
  · intro now pos hf
    by_cases h : now - s.last_seek_time < min_seek_interval
    · rw [set_position_dropped env s now pos h] at hf
      exact absurd hf Bool.false_ne_true
    · linarith [not_lt.mp h]
  · have hchain := runSeeks_accepted_chain env calls s
    have hmemw : ∀ x ∈ (runSeeks env s calls).2.1, a ≤ x ∧ x < a + 1 := by
      intro x hx
      obtain ⟨c, hc1, hc2⟩ := List.mem_map.mp (runSeeks_accepted_mem env calls s x hx)
      exact hc2 ▸ hw c hc1
    exact Nat.le_trans (runSeeks_forwarded_length env calls s)
      (accepted_in_window_le_ten s.last_seek_time a _ hchain hmemw)

def sSeekW : PlayerState :=
  { initState with duration := 1000 }

def callsW : List (ℚ × Int) :=
  [(1, 100), (11/10, 200), (12/10, 300), (13/10, 400), (14/10, 500), (3/2, 600),
    (16/10, 700), (17/10, 800), (18/10, 900), (19/10, 950), (39/20, 990)]

/-- Concrete instance of claim C5: eleven `set_position` calls with timestamps
inside the second [1, 2) forward at most ten seeks to the driver. -/
theorem seek_rate_limiting_witness :
    (runSeeks envNone sSeekW callsW).2.2.length ≤ 10 :=
  (seek_rate_limiting envNone sSeekW callsW 1 (by norm_num [callsW])).2.2

end AudioPlayerModel
